import Mathlib

/-!
Shallow embedding of the SponsorGuard email intake and classification
pipeline (chrome-extension/content.js, background.js, popup.js).

JavaScript strings are modelled as Lean `String`s (lists of characters);
`String.prototype.includes` becomes a substring scan, `slice(0, n)` becomes
`List.take` on the character list, and JS 32-bit integer coercions
(`<<`, `& `, `ToInt32`) become explicit reduction into the signed 32-bit
window over `Int`.  DOM nodes are modelled by the record `Element` carrying
the attribute values and query results the source reads; the host regex
engine used by `String.prototype.match` is modelled by the uninterpreted
callback record `RegexHost` (theorems about the extractor hold for every
behaviour of those callbacks).  Side effects that touch neither the
processed-set ledger nor the analysis client (logging, UI labelling,
Google-Docs export, clock and location reads) are elided.
-/

namespace SponsorGuard

/-- JS `pat.isPrefixOf`-style substring scan: `jsIncludes s pat` models
`s.includes(pat)` — true iff `pat` occurs contiguously in `s`
(the empty pattern always occurs, as in JS). -/
def strIncludesL : List Char → List Char → Bool
  | [], pat => pat.isEmpty
  | c :: t, pat => pat.isPrefixOf (c :: t) || strIncludesL t pat

/-- Models `s.includes(pat)` on JS strings. -/
def jsIncludes (s pat : String) : Bool :=
  strIncludesL s.data pat.data

/-- Models `s.slice(0, n)` for `n ≥ 0`: the first `n` characters. -/
def jsSlice (s : String) (n : Nat) : String :=
  String.mk (s.data.take n)

/-- Models `text.split('\n')[0]`: the prefix up to the first newline. -/
def firstLine (s : String) : String :=
  String.mk (s.data.takeWhile (· ≠ '\n'))

/-- Models `s.toLowerCase()` (ASCII range, which covers every keyword the
source compares against). -/
def jsToLower (s : String) : String :=
  String.mk (s.data.map Char.toLower)

/-- JS truthiness of a string-or-null value: `null`/`undefined` and the
empty string are falsy. -/
def jsTruthyO (o : Option String) : Bool :=
  match o with
  | some s => s != ""
  | none => false

/-- Models the JS `a || b` default chain on string-or-null `a`:
returns `a` when it is truthy, else `b`. -/
def jsOrS (a : Option String) (b : String) : String :=
  match a with
  | some s => if s == "" then b else s
  | none => b

/-- Reduction of an integer into the signed 32-bit window, the effect of
JS `ToInt32` (applied by `<<` and `&`). -/
def toInt32 (z : Int) : Int :=
  (z + 2 ^ 31) % 2 ^ 32 - 2 ^ 31

/-- Digit character for base-36 output, matching JS `Number.toString(36)`:
`0`–`9` then lowercase `a`–`z`. -/
def base36Digit (n : Nat) : Char :=
  if n < 10 then Char.ofNat (48 + n) else Char.ofNat (87 + n)

/-- Accumulates the base-36 digits of the second argument in front of
`acc`; the first argument is recursion fuel (any value at least the digit
count, in particular `n + 1`, is enough). -/
def toBase36Go : Nat → Nat → List Char → List Char
  | 0, _, acc => acc
  | _ + 1, 0, acc => acc
  | fuel + 1, n + 1, acc =>
    toBase36Go fuel ((n + 1) / 36) (base36Digit ((n + 1) % 36) :: acc)

/-- Models `n.toString(36)` for a nonnegative integer `n`. -/
def toBase36 (n : Nat) : String :=
  if n == 0 then "0" else String.mk (toBase36Go (n + 1) n [])

/-- extractedInfo record of an AnalysisResult; absent JSON fields are
`none`. -/
structure ExtractedInfo where
  companyName : Option String
  website : Option String
  contactPerson : Option String
  offer : Option String
deriving DecidableEq

/-- One entry of the `flags` array of an AnalysisResult. -/
structure Flag where
  type : String
  message : String
deriving DecidableEq

/-- JSON body returned by the remote `/api/verify` endpoint; every field
may be absent. -/
structure RemoteResult where
  riskScore : Option Nat
  status : Option String
  extractedInfo : Option ExtractedInfo
  flags : Option (List Flag)
deriving DecidableEq

/-- The canonical result shape flowing back to the content script: either
the spread of a `RemoteResult` plus the recomputed `isSponsor`, or the
locally synthesized fallback (which also carries `error`). -/
structure AnalysisResult where
  error : Option String
  isSponsor : Bool
  riskScore : Option Nat
  status : Option String
  extractedInfo : Option ExtractedInfo
  flags : Option (List Flag)
deriving DecidableEq

/-- The normalized email record produced by `extractEmailData`
(`timestamp`, `url` and the DOM back-reference `element` are
host-environment values elided from the model). -/
structure EmailData where
  id : String
  subject : String
  sender : String
  body : String
deriving DecidableEq

/-- The sender element found by the sender selectors: its `email` and
`name` attributes (null when absent) and its text content. -/
structure SenderEl where
  email : Option String
  name : Option String
  text : String
deriving DecidableEq

/-- A DOM node as read by the source: the three Gmail identifier
attributes (`getAttribute` returns null or a string), `element.id`
(always a string, empty when unset), the visible text, the node's index
in `parentNode.children` (`-1` when detached), and the results of the
subject/sender `querySelector` cascades. -/
structure Element where
  threadId : Option String
  messageId : Option String
  legacyId : Option String
  id : String
  textContent : String
  position : Int
  subjectElemText : Option String
  senderElem : Option SenderEl
deriving DecidableEq

/-- The host regex engine behind `String.prototype.match`, uninterpreted:
`subjectPat` models the capture of
`/Subject:\s*(.+?)(?:\n|From:|$)/i || /^(.+?)\n/` on the node text,
`emailPat` the RFC-5322-ish address capture, `companyPat` the
company-suffix capture of `extractBasicInfo`, `urlPat` its first-URL
match.  `none` models a failed match. -/
structure RegexHost where
  subjectPat : String → Option String
  emailPat : String → Option String
  companyPat : String → Option String
  urlPat : String → Option String

/-- content.js `simpleHash` accumulator: per character,
`hash = ((hash << 5) - hash) + charCode; hash = hash & hash` — the shift
and the self-`&` each apply `ToInt32`. -/
def simpleHashAcc (l : List Char) : Int :=
  l.foldl (fun hash c => toInt32 (toInt32 (hash * 32) - hash + (c.toNat : Int))) 0

/-- content.js `simpleHash`: `Math.abs(hash).toString(36)`. -/
def simpleHash (s : String) : String :=
  toBase36 (simpleHashAcc s.data).natAbs

/-- content.js `getEmailId`: prefer the Gmail thread/message/legacy
attributes, then `element.id`, else a content-hash fingerprint of the
first 200 characters plus the sibling position. -/
def getEmailId (e : Element) : String :=
  if jsTruthyO e.threadId then "thread_" ++ e.threadId.getD ""
  else if jsTruthyO e.messageId then "msg_" ++ e.messageId.getD ""
  else if jsTruthyO e.legacyId then "legacy_" ++ e.legacyId.getD ""
  else if e.id != "" then "elem_" ++ e.id
  else
    "content_" ++ simpleHash (jsSlice e.textContent 200) ++ "_" ++ toString e.position

/-- The 30-keyword prefilter list of content.js `hasSponsortKeywords`. -/
def sponsorKeywordsContent : List String :=
  ["sponsor", "partnership", "collaboration", "brand deal",
   "influencer", "campaign", "promotion", "advertising",
   "content creator", "social media", "youtube", "instagram",
   "tiktok", "brand ambassador", "affiliate", "marketing",
   "product placement", "endorsement", "paid post", "review",
   "feature", "shoutout", "mention", "brand", "company",
   "business", "opportunity", "proposal", "deal", "offer"]

/-- content.js `hasSponsortKeywords` (the Keyword Prefilter): any keyword
occurs in the lowercased `subject + " " + body`. -/
def hasSponsortKeywords (emailData : EmailData) : Bool :=
  let emailText := jsToLower (emailData.subject ++ " " ++ emailData.body)
  sponsorKeywordsContent.any (fun keyword => jsIncludes emailText keyword)

/-- content.js `extractEmailData`: returns `none` for nodes whose text is
shorter than 20 characters, else the record with the subject/sender
derivation cascades and the final length-limiting slices. -/
def extractEmailData (eng : RegexHost) (e : Element) : Option EmailData :=
  let text := e.textContent
  if text.length < 20 then none
  else
    let subject0 := jsOrS e.subjectElemText "No Subject"
    let sender0 :=
      match e.senderElem with
      | some se => jsOrS se.email (jsOrS se.name (jsOrS (some se.text) "Unknown Sender"))
      | none => "Unknown Sender"
    let subject1 :=
      if e.subjectElemText.isNone || subject0 == "No Subject" then
        match eng.subjectPat text with
        | some m => m.trim
        | none => subject0
      else subject0
    let sender1 :=
      if e.senderElem.isNone || sender0 == "Unknown Sender" then
        match eng.emailPat text with
        | some m => m
        | none => sender0
      else sender0
    let subject2 :=
      if subject1 == "No Subject" then jsSlice (firstLine text) 50 ++ "..." else subject1
    some
      { id := getEmailId e
        subject := jsSlice subject2 200
        sender := jsSlice sender1 100
        body := jsSlice text 5000 }

/-- content.js `isSponsorEmail` (the Classifier Reconciler): JS `||`
chain over truthiness of the result fields; note
`result.riskScore && result.riskScore < 50` is falsy when `riskScore`
is `0` or absent. -/
def isSponsorEmail (result : AnalysisResult) : Bool :=
  result.isSponsor ||
  jsTruthyO (result.extractedInfo.bind (·.companyName)) ||
  jsTruthyO (result.extractedInfo.bind (·.offer)) ||
  (match result.riskScore with
   | some n => !(n == 0) && decide (n < 50)
   | none => false) ||
  (match result.flags with
   | some fs => fs.any (fun flag => flag.type == "green")
   | none => false)

/-- content.js `processEmail`, restricted to its ledger and
analysis-client effects: the membership check, the insert (persisting the
set is an external storage effect), extraction, the keyword gate, and
whether `sendToAnalysis` is reached.  The post-analysis result handling
neither touches the processed set nor calls the client again and is
elided.  Returns the new processed set and whether the Analysis Client
was invoked. -/
def processEmail (eng : RegexHost) (st : List String) (e : Element) :
    List String × Bool :=
  let emailId := getEmailId e
  if emailId ∈ st then (st, false)
  else
    let st1 := emailId :: st
    match extractEmailData eng e with
    | none => (st1, false)
    | some emailData =>
      if hasSponsortKeywords emailData then (st1, true) else (st1, false)

/-- Number of Analysis Client invocations attributed to identity `id`
during a sequential run of `processEmail` over `es` starting from
processed set `st`. -/
def countAnalyses (eng : RegexHost) (st : List String) (es : List Element)
    (id : String) : Nat :=
  match es with
  | [] => 0
  | e :: rest =>
    let p := processEmail eng st e
    (if p.2 = true ∧ getEmailId e = id then 1 else 0) +
      countAnalyses eng p.1 rest id

/-- popup.js `addChecklistSummary` score class: the threshold mapping
`riskScore > 70 ? 'danger' : riskScore > 40 ? 'warning' : 'safe'`. -/
def scoreClass (riskScore : Nat) : String :=
  if riskScore > 70 then "danger" else if riskScore > 40 then "warning" else "safe"

/-- The 19-keyword list of background.js `determineSponsorStatus`. -/
def sponsorKeywordsBackground : List String :=
  ["sponsor", "partnership", "collaboration", "brand deal",
   "influencer", "campaign", "promotion", "advertising",
   "content creator", "social media", "youtube", "instagram",
   "tiktok", "brand ambassador", "affiliate", "marketing",
   "product placement", "endorsement", "paid post"]

/-- background.js `determineSponsorStatus`: keyword presence in the
lowercased `subject + " " + body` AND at least one of low risk score
(truthy and `< 40`), extracted business info, or a professional
(non-gmail/yahoo/hotmail) sender. -/
def determineSponsorStatus (analysisResult : RemoteResult) (emailData : EmailData) :
    Bool :=
  let emailText := jsToLower (emailData.subject ++ " " ++ emailData.body)
  let hasKeywords := sponsorKeywordsBackground.any (fun keyword => jsIncludes emailText keyword)
  let lowRisk :=
    match analysisResult.riskScore with
    | some n => !(n == 0) && decide (n < 40)
    | none => false
  let hasBusinessInfo :=
    jsTruthyO (analysisResult.extractedInfo.bind (·.companyName)) ||
    jsTruthyO (analysisResult.extractedInfo.bind (·.website))
  let professionalSender :=
    emailData.sender != "" &&
    !(jsIncludes emailData.sender "gmail.com") &&
    !(jsIncludes emailData.sender "yahoo.com") &&
    !(jsIncludes emailData.sender "hotmail.com")
  hasKeywords && (lowRisk || hasBusinessInfo || professionalSender)

/-- The 8-keyword list of background.js `fallbackSponsorDetection`. -/
def fallbackKeywords : List String :=
  ["sponsor", "partnership", "collaboration", "brand deal",
   "influencer", "campaign", "promotion", "advertising"]

/-- background.js `fallbackSponsorDetection`: any of the eight fallback
keywords occurs in the lowercased `subject + " " + body`. -/
def fallbackSponsorDetection (emailData : EmailData) : Bool :=
  let emailText := jsToLower (emailData.subject ++ " " ++ emailData.body)
  fallbackKeywords.any (fun keyword => jsIncludes emailText keyword)

/-- background.js `extractBasicInfo`: best-effort company/website/offer
extraction for the fallback result (company regex applied to the
lowercased body, URL regex to the raw body). -/
def extractBasicInfo (eng : RegexHost) (emailData : EmailData) : ExtractedInfo :=
  { companyName :=
      some (match eng.companyPat (jsToLower emailData.body) with
            | some m => m.trim
            | none => "Not specified")
    website := some ((eng.urlPat emailData.body).getD "Not specified")
    contactPerson := none
    offer := some "Potential business opportunity detected" }

/-- Outcome of `response.json()`: a parse failure or the parsed body. -/
inductive ParseOutcome where
  | parseError (msg : String)
  | parsed (r : RemoteResult)
deriving DecidableEq

/-- Outcome of `fetch` on the analysis endpoint: a transport failure
(rejected promise) or an HTTP response with its `ok` flag, status code
and body. -/
inductive FetchOutcome where
  | transportError (msg : String)
  | httpResponse (ok : Bool) (status : Nat) (body : ParseOutcome)
deriving DecidableEq

/-- The `try` body of background.js `analyzeEmailWithAI`: throws
(`Except.error`) on transport failure, on `!response.ok`
(`Analysis failed: ${status}`) and on JSON parse failure; on success
returns the spread of the remote result with the recomputed
`isSponsor`. -/
def analyzeBody (o : FetchOutcome) (emailData : EmailData) :
    Except String AnalysisResult :=
  match o with
  | .transportError msg => .error msg
  | .httpResponse ok status body =>
    if ok then
      match body with
      | .parseError msg => .error msg
      | .parsed result =>
        .ok { error := none
              isSponsor := determineSponsorStatus result emailData
              riskScore := result.riskScore
              status := result.status
              extractedInfo := result.extractedInfo
              flags := result.flags }
    else .error ("Analysis failed: " ++ toString status)

/-- The fallback AnalysisResult built in the `catch` branch of
background.js `analyzeEmailWithAI`. -/
def fallbackAnalysis (eng : RegexHost) (emailData : EmailData) (msg : String) :
    AnalysisResult :=
  { error := some msg
    isSponsor := fallbackSponsorDetection emailData
    riskScore := some 50
    status := some "warning"
    flags := some [⟨"yellow", "API unavailable - using fallback detection"⟩]
    extractedInfo := some (extractBasicInfo eng emailData) }

/-- background.js `analyzeEmailWithAI` (the Analysis Client): the whole
body sits in a `try` whose `catch` converts every thrown error into the
fallback result, so the function itself never throws — `Except.error`
would model an uncaught exception and is never produced. -/
def analyzeEmailWithAI (eng : RegexHost) (o : FetchOutcome) (emailData : EmailData) :
    Except String AnalysisResult :=
  match analyzeBody o emailData with
  | .ok result => .ok result
  | .error msg => .ok (fallbackAnalysis eng emailData msg)

/-- Remote-call failure in the sense of claim C1: transport failure or a
non-success HTTP status. -/
def fetchFailed (o : FetchOutcome) : Bool :=
  match o with
  | .transportError _ => true
  | .httpResponse ok _ _ => !ok

/-- One step of the multiply-by-31 rolling hash described by the spec
(`hash * 31 + charCode`, reduced into the signed 32-bit window). -/
def hash31Step (h : Int) (c : Char) : Int :=
  toInt32 (31 * h + (c.toNat : Int))

/-- The multiply-by-31 signed 32-bit rolling hash described by the spec. -/
def hash31Acc (l : List Char) : Int :=
  l.foldl hash31Step 0

/-- Modelled from the spec for comparison against the source: the claim
C5 fallback identity with the signed 32-bit rolling hash of the first 200
characters wrapped to unsigned (reinterpreted modulo `2 ^ 32`), base-36
encoded, concatenated with the sibling position. -/
def specUnsignedFallbackId (e : Element) : String :=
  "content_" ++ toBase36 ((hash31Acc (e.textContent.data.take 200)) % 2 ^ 32).toNat ++
    "_" ++ toString e.position

/-- Trivial regex host whose every match fails, used to instantiate the
uninterpreted engine on concrete inputs. -/
def engNone : RegexHost :=
  ⟨fun _ => none, fun _ => none, fun _ => none, fun _ => none⟩

/-- Concrete record whose text contains the prefilter keyword `brand` but
none of the eight fallback keywords. -/
def c1Rec : EmailData :=
  { id := "rec1", subject := "our brand", sender := "a@b.co",
    body := "hello there friend" }

/-- Concrete node with no identifier attributes whose text hashes to a
negative signed 32-bit value. -/
def c5Elem : Element :=
  { threadId := none, messageId := none, legacyId := none, id := "",
    textContent := "aaaaaa", position := 0, subjectElemText := none,
    senderElem := none }

/-- Concrete node whose extracted record contains no sponsor keyword. -/
def c7Elem : Element :=
  { threadId := some "t1", messageId := none, legacyId := none, id := "",
    textContent := "zzzz qqqq xxxx wwww vvvv", position := 0,
    subjectElemText := none, senderElem := none }

/-- The record `extractEmailData` produces for `c7Elem` under `engNone`. -/
def c7Data : EmailData :=
  { id := "thread_t1", subject := "zzzz qqqq xxxx wwww vvvv...",
    sender := "Unknown Sender", body := "zzzz qqqq xxxx wwww vvvv" }

/-- Concrete node exercising the structured subject/sender lookups. -/
def c8Elem : Element :=
  { threadId := some "t8", messageId := none, legacyId := none, id := "",
    textContent := "The quick brown fox jumps over the lazy dog",
    position := 2, subjectElemText := some "Hello World Subject",
    senderElem := some ⟨some "x@y.com", none, "X"⟩ }

/-- The record `extractEmailData` produces for `c8Elem` under `engNone`. -/
def c8Data : EmailData :=
  { id := "thread_t8", subject := "Hello World Subject", sender := "x@y.com",
    body := "The quick brown fox jumps over the lazy dog" }

/-- Concrete remote result with a low risk score. -/
def c9Remote : RemoteResult :=
  { riskScore := some 20, status := some "safe", extractedInfo := none,
    flags := none }

/-- Concrete record containing the keyword `sponsor`. -/
def c9Data : EmailData :=
  { id := "rec9", subject := "sponsor", sender := "a@corp.io",
    body := "hello body" }

/-- The result `analyzeEmailWithAI` returns for `c9Remote`/`c9Data` on a
successful remote call. -/
def c9Final : AnalysisResult :=
  { error := none, isSponsor := true, riskScore := some 20,
    status := some "safe", extractedInfo := none, flags := none }

/-! ### Helper lemmas -/

theorem jsSlice_length_le (s : String) (n : Nat) : (jsSlice s n).length ≤ n := by
  show (s.data.take n).length ≤ n
  simp [List.length_take]

theorem toInt32_congr {a b : Int} (h : a % 2 ^ 32 = b % 2 ^ 32) :
    toInt32 a = toInt32 b := by
  unfold toInt32
  omega

theorem toInt32_emod (a : Int) : toInt32 a % 2 ^ 32 = a % 2 ^ 32 := by
  unfold toInt32
  omega

theorem shiftStep_eq_mulStep (h c : Int) :
    toInt32 (toInt32 (h * 32) - h + c) = toInt32 (31 * h + c) := by
  apply toInt32_congr
  have ht := toInt32_emod (h * 32)
  omega

theorem simpleHashAcc_eq_hash31 (l : List Char) :
    simpleHashAcc l = hash31Acc l := by
  have key : ∀ (l : List Char) (a : Int),
      l.foldl (fun hash c => toInt32 (toInt32 (hash * 32) - hash + (c.toNat : Int))) a =
        l.foldl hash31Step a := by
    intro l
    induction l with
    | nil => intro a; rfl
    | cons c t ih =>
      intro a
      have hstep : toInt32 (toInt32 (a * 32) - a + (c.toNat : Int)) = hash31Step a c :=
        shiftStep_eq_mulStep a (c.toNat : Int)
      simp only [List.foldl_cons, hstep, ih]
  exact key l 0

theorem fallback_implies_prefilter (d : EmailData)
    (h : fallbackSponsorDetection d = true) : hasSponsortKeywords d = true := by
  have hsub : ∀ x ∈ fallbackKeywords, x ∈ sponsorKeywordsContent := by decide
  simp only [fallbackSponsorDetection, List.any_eq_true] at h
  simp only [hasSponsortKeywords, List.any_eq_true]
  obtain ⟨k, hk, hik⟩ := h
  exact ⟨k, hsub k hk, hik⟩

theorem processEmail_mem (eng : RegexHost) (st : List String) (e : Element)
    {x : String} (h : x ∈ st) : x ∈ (processEmail eng st e).1 := by
  simp only [processEmail]
  split
  · exact h
  · split
    · exact List.mem_cons_of_mem _ h
    · split
      · exact List.mem_cons_of_mem _ h
      · exact List.mem_cons_of_mem _ h

theorem processEmail_invoked (eng : RegexHost) (st : List String) (e : Element)
    (h : (processEmail eng st e).2 = true) :
    getEmailId e ∉ st ∧ (processEmail eng st e).1 = getEmailId e :: st := by
  simp only [processEmail] at h ⊢
  split at h
  · simp at h
  · next hmem =>
    refine ⟨hmem, ?_⟩
    split
    · next hmem2 => exact absurd hmem2 hmem
    · split
      · rfl
      · split <;> rfl

theorem countAnalyses_zero (eng : RegexHost) (es : List Element) :
    ∀ (st : List String) (id : String), id ∈ st →
      countAnalyses eng st es id = 0 := by
  induction es with
  | nil => intro st id _; rfl
  | cons e rest ih =>
    intro st id h
    simp only [countAnalyses]
    rw [ih _ _ (processEmail_mem eng st e h)]
    have hz : (if (processEmail eng st e).2 = true ∧ getEmailId e = id then 1 else 0) = 0 := by
      split
      · next hc =>
        have hni := (processEmail_invoked eng st e hc.1).1
        rw [hc.2] at hni
        exact absurd h hni
      · rfl
    omega

/-! ### Claim theorems -/

/-- C1 (counterexample): the claim that the fallback result's `isSponsor`
equals the Keyword Prefilter's result fails — on a record containing only
the prefilter keyword `brand`, the transport-failure fallback sets
`isSponsor = false` while `hasSponsortKeywords` returns `true`. -/
theorem c1_prefilter_counterexample :
    hasSponsortKeywords c1Rec = true ∧
      (analyzeEmailWithAI engNone (.transportError "Failed to fetch") c1Rec).toOption.map
        AnalysisResult.isSponsor = some false :=
  ⟨by decide, rfl⟩

/-- C1 (amended): on every record whose remote call fails (transport
failure or non-success HTTP status), `analyzeEmailWithAI` returns a
fallback result with `riskScore = 50`, `status = warning`, exactly one
caution (`yellow`) flag, and `isSponsor` equal to the eight-keyword
`fallbackSponsorDetection` — whose keywords form a subset of the
Prefilter's, so `isSponsor = true` implies the Prefilter result but not
conversely. -/
theorem c1_fallback_result (eng : RegexHost) (o : FetchOutcome) (emailData : EmailData)
    (h : fetchFailed o = true) :
    ∃ r, analyzeEmailWithAI eng o emailData = .ok r ∧
      r.riskScore = some 50 ∧ r.status = some "warning" ∧
      r.flags = some [⟨"yellow", "API unavailable - using fallback detection"⟩] ∧
      r.isSponsor = fallbackSponsorDetection emailData ∧
      (r.isSponsor = true → hasSponsortKeywords emailData = true) := by
  have hbody : ∃ msg, analyzeBody o emailData = .error msg := by
    cases o with
    | transportError m => exact ⟨m, rfl⟩
    | httpResponse ok status body =>
      cases ok with
      | true => simp [fetchFailed] at h
      | false => exact ⟨_, rfl⟩
  obtain ⟨msg, hmsg⟩ := hbody
  refine ⟨fallbackAnalysis eng emailData msg, ?_, rfl, rfl, rfl, rfl,
    fun hs => fallback_implies_prefilter emailData hs⟩
  simp [analyzeEmailWithAI, hmsg]

/-- C1 (witness): the amended theorem instantiated on a transport failure
for the concrete record `c1Rec`. -/
theorem c1_fallback_result_witness :
    ∃ r, analyzeEmailWithAI engNone (.transportError "Failed to fetch") c1Rec = .ok r ∧
      r.riskScore = some 50 ∧ r.status = some "warning" ∧
      r.flags = some [⟨"yellow", "API unavailable - using fallback detection"⟩] ∧
      r.isSponsor = fallbackSponsorDetection c1Rec ∧
      (r.isSponsor = true → hasSponsortKeywords c1Rec = true) :=
  c1_fallback_result engNone (.transportError "Failed to fetch") c1Rec rfl

/-- C2 (code evaluation at the failing input): the reconciler
`isSponsorEmail` returns `false` on a result whose `riskScore` is `0`
with no other signal, because the JS guard
`result.riskScore && result.riskScore < 50` is falsy at `0` — the claim
(and the source comment `Low risk = good sponsor`) require `true`
whenever `riskScore < 50`. -/
theorem c2_risk_zero_not_sponsor :
    isSponsorEmail
        { error := none, isSponsor := false, riskScore := some 0,
          status := some "safe", extractedInfo := some ⟨none, none, none, none⟩,
          flags := some [] } = false := by
  decide

/-- C3 (confirmed): over any sequential run of `processEmail`, the
Analysis Client is invoked at most once per identity — the ledger
membership check and insert precede the analysis call, so
`countAnalyses` never exceeds one for any identity and any starting
processed set. -/
theorem c3_at_most_once (eng : RegexHost) (es : List Element) :
    ∀ (st : List String) (id : String), countAnalyses eng st es id ≤ 1 := by
  induction es with
  | nil => intro st id; simp [countAnalyses]
  | cons e rest ih =>
    intro st id
    simp only [countAnalyses]
    by_cases hc : (processEmail eng st e).2 = true ∧ getEmailId e = id
    · rw [if_pos hc]
      have h1 := (processEmail_invoked eng st e hc.1).2
      have hmem : id ∈ (processEmail eng st e).1 := by
        rw [h1, hc.2]
        exact List.mem_cons_self _ _
      rw [countAnalyses_zero eng rest _ _ hmem]
    · rw [if_neg hc]
      simpa using ih (processEmail eng st e).1 id

/-- C4 (confirmed): for every riskScore in `[0, 100]`, the popup's
threshold mapping yields `safe` for `riskScore ≤ 40`, `warning` for
`41–70` and `danger` above `70` (so in particular `0 → safe`,
`40 → safe`, `41 → warning`, `71 → danger`, `100 → danger`). -/
theorem c4_threshold_mapping (r : Nat) (h : r ≤ 100) :
    (r ≤ 40 → scoreClass r = "safe") ∧
      (41 ≤ r ∧ r ≤ 70 → scoreClass r = "warning") ∧
      (70 < r → scoreClass r = "danger") := by
  unfold scoreClass
  refine ⟨fun h1 => ?_, fun h1 => ?_, fun h1 => ?_⟩ <;>
    split_ifs <;> first | rfl | omega

/-- C4 (witness): the threshold mapping evaluated at `71`. -/
theorem c4_threshold_mapping_witness : scoreClass 71 = "danger" :=
  (c4_threshold_mapping 71 (by decide)).2.2 (by decide)

set_option maxRecDepth 16384 in
/-- C5 (counterexample): on a node with no identifier attributes whose
six-character text hashes to a negative signed 32-bit value,
`getEmailId` (which takes `Math.abs` of the hash) differs from the
spec-described identity that wraps the signed value to unsigned. -/
theorem c5_unsigned_counterexample :
    getEmailId c5Elem ≠ specUnsignedFallbackId c5Elem := by
  decide

/-- C5 (amended): for every node with no host-provided identifier (the
three Gmail attributes and `element.id` all falsy), the computed identity
is `content_` followed by the base-36 encoding of the absolute value —
not the unsigned reinterpretation — of the signed 32-bit multiply-by-31
rolling hash of the first 200 characters of the node's text, followed by
`_` and the node's sibling position. -/
theorem c5_fallback_identity (e : Element)
    (h1 : jsTruthyO e.threadId = false) (h2 : jsTruthyO e.messageId = false)
    (h3 : jsTruthyO e.legacyId = false) (h4 : e.id = "") :
    getEmailId e =
      "content_" ++ toBase36 (hash31Acc (e.textContent.data.take 200)).natAbs ++
        "_" ++ toString e.position := by
  simp only [getEmailId, h1, h2, h3, h4, Bool.false_eq_true, if_false,
    simpleHash, jsSlice, simpleHashAcc_eq_hash31]
  rfl

/-- C5 (witness): the amended identity formula evaluated on the concrete
node `c5Elem`. -/
theorem c5_fallback_identity_witness :
    getEmailId c5Elem =
      "content_" ++ toBase36 (hash31Acc (c5Elem.textContent.data.take 200)).natAbs ++
        "_" ++ toString c5Elem.position :=
  c5_fallback_identity c5Elem (by decide) (by decide) (by decide) rfl

/-- C6 (confirmed): `analyzeEmailWithAI` never raises — for every
transport outcome (transport error, non-success status, parse failure, or
success) and every record it returns an `AnalysisResult`, never an
uncaught exception. -/
theorem c6_never_raises (eng : RegexHost) (o : FetchOutcome) (emailData : EmailData) :
    ∃ result, analyzeEmailWithAI eng o emailData = .ok result := by
  unfold analyzeEmailWithAI
  split
  · exact ⟨_, rfl⟩
  · exact ⟨_, rfl⟩

/-- C7 (confirmed): for every node whose extracted record contains no
sponsor keyword, `processEmail` terminates without invoking the Analysis
Client while the node's identity is nevertheless in the processed set
afterwards. -/
theorem c7_no_keywords_skips (eng : RegexHost) (st : List String) (e : Element)
    (d : EmailData) (hex : extractEmailData eng e = some d)
    (hkw : hasSponsortKeywords d = false) :
    (processEmail eng st e).2 = false ∧
      getEmailId e ∈ (processEmail eng st e).1 := by
  simp only [processEmail, hex, hkw, Bool.false_eq_true, if_false]
  split
  · next hmem => exact ⟨rfl, hmem⟩
  · exact ⟨rfl, List.mem_cons_self _ _⟩

/-- C7 (witness): the keyword-free concrete node `c7Elem` starting from
the empty processed set. -/
theorem c7_no_keywords_skips_witness :
    (processEmail engNone [] c7Elem).2 = false ∧
      getEmailId c7Elem ∈ (processEmail engNone [] c7Elem).1 :=
  c7_no_keywords_skips engNone [] c7Elem c7Data (by decide) (by decide)

/-- C8 (confirmed): every record `extractEmailData` returns satisfies the
length bounds `subject ≤ 200`, `sender ≤ 100`, `body ≤ 5000`, on every
derivation path (every behaviour of the host regex engine and every
subject/sender cascade outcome), because the final slices bound each
field. -/
theorem c8_length_bounds (eng : RegexHost) (e : Element) (d : EmailData)
    (h : extractEmailData eng e = some d) :
    d.subject.length ≤ 200 ∧ d.sender.length ≤ 100 ∧ d.body.length ≤ 5000 := by
  simp only [extractEmailData] at h
  split at h
  · exact absurd h (by simp)
  · rw [Option.some.injEq] at h
    subst h
    exact ⟨jsSlice_length_le _ _, jsSlice_length_le _ _, jsSlice_length_le _ _⟩

/-- C8 (witness): the bounds on the record extracted from the concrete
node `c8Elem`. -/
theorem c8_length_bounds_witness :
    c8Data.subject.length ≤ 200 ∧ c8Data.sender.length ≤ 100 ∧
      c8Data.body.length ≤ 5000 :=
  c8_length_bounds engNone c8Elem c8Data (by decide)

/-- C9 (confirmed): on every successful remote analysis, the returned
`isSponsor` is true only if the lowercased subject-plus-body contains a
keyword of the background sponsor list AND at least one further signal
holds: a riskScore below 40, a truthy extracted companyName or website,
or a nonempty sender containing none of gmail.com, yahoo.com,
hotmail.com. -/
theorem c9_sponsor_requires_signals (eng : RegexHost) (status : Nat)
    (r : RemoteResult) (d : EmailData) (fr : AnalysisResult)
    (h : analyzeEmailWithAI eng (.httpResponse true status (.parsed r)) d = .ok fr)
    (hs : fr.isSponsor = true) :
    sponsorKeywordsBackground.any
        (fun k => jsIncludes (jsToLower (d.subject ++ " " ++ d.body)) k) = true ∧
      ((∃ n, r.riskScore = some n ∧ n < 40) ∨
        jsTruthyO (r.extractedInfo.bind (·.companyName)) = true ∨
        jsTruthyO (r.extractedInfo.bind (·.website)) = true ∨
        (d.sender ≠ "" ∧ jsIncludes d.sender "gmail.com" = false ∧
          jsIncludes d.sender "yahoo.com" = false ∧
          jsIncludes d.sender "hotmail.com" = false)) := by
  have hfr : fr =
      { error := none, isSponsor := determineSponsorStatus r d,
        riskScore := r.riskScore, status := r.status,
        extractedInfo := r.extractedInfo, flags := r.flags } := by
    simp only [analyzeEmailWithAI, analyzeBody, if_true, Except.ok.injEq] at h
    exact h.symm
  subst hfr
  have hd : determineSponsorStatus r d = true := hs
  simp only [determineSponsorStatus, Bool.and_eq_true, Bool.or_eq_true] at hd
  obtain ⟨hkw, hrest⟩ := hd
  refine ⟨hkw, ?_⟩
  rcases hrest with (h1 | h2 | h2) | h3
  · left
    revert h1
    cases r.riskScore with
    | none => simp
    | some n =>
      intro h1
      simp only [Bool.and_eq_true, decide_eq_true_eq] at h1
      exact ⟨n, rfl, h1.2⟩
  · right; left; exact h2
  · right; right; left; exact h2
  · right; right; right
    simp only [Bool.and_eq_true, Bool.not_eq_true', bne_iff_ne, ne_eq] at h3
    exact ⟨h3.1.1.1, h3.1.1.2, h3.1.2, h3.2⟩

/-- C9 (witness): the signal requirement instantiated on a successful
remote call with riskScore 20 for the concrete record `c9Data`. -/
theorem c9_sponsor_requires_signals_witness :
    sponsorKeywordsBackground.any
        (fun k => jsIncludes (jsToLower (c9Data.subject ++ " " ++ c9Data.body)) k) = true ∧
      ((∃ n, c9Remote.riskScore = some n ∧ n < 40) ∨
        jsTruthyO (c9Remote.extractedInfo.bind (·.companyName)) = true ∨
        jsTruthyO (c9Remote.extractedInfo.bind (·.website)) = true ∨
        (c9Data.sender ≠ "" ∧ jsIncludes c9Data.sender "gmail.com" = false ∧
          jsIncludes c9Data.sender "yahoo.com" = false ∧
          jsIncludes c9Data.sender "hotmail.com" = false)) :=
  c9_sponsor_requires_signals engNone 200 c9Remote c9Data c9Final rfl rfl

end SponsorGuard
